import Mathlib

/-!
Verification of the FreeCAD MCP server (`src/server.py`) and its FreeCAD
addon communication server (`src/addon/MCPServerFreeCAD/comm_server/`).

The FreeCAD document API (`FreeCAD.newDocument`, `doc.addObject`,
`doc.getObject`, `doc.recompute`, `doc.saveAs`, mesh tessellation) is the
opaque host collaborator: documents are embedded as a pure value
(`Document` = named list of `DocObject`), property mutation as functional
update, `recompute` as the identity on the document value, and filesystem
writes (`saveAs`, mesh `write`) as an event trace `writes` carried in the
server state.  Python float scalars are embedded as exact rationals.
Tool arguments (`Dict[str, Any]`) are embedded as an association list of
dynamic `Value`s; a required key that is absent raises `KeyError`, a value
of the wrong dynamic type raises `TypeError`, exactly the places where the
Python would raise.  A handler returns its (possibly mutated) state
together with `Except PyExc String`: the `.error` case is a Python
exception propagating out of the handler.
-/

namespace FreeCADMCP

/-- A 3-component vector, as built by `FreeCAD.Vector(x, y, z)`. -/
structure Vec where
  x : ℚ
  y : ℚ
  z : ℚ
deriving DecidableEq, Repr

def Vec.add (a b : Vec) : Vec := ⟨a.x + b.x, a.y + b.y, a.z + b.z⟩

/-- `FreeCAD.Rotation(axis, angle_degrees)`. -/
structure Rot where
  axis : Vec
  angle : ℚ
deriving DecidableEq, Repr

/-- Identity rotation: FreeCAD's default placement rotation. -/
def Rot.ident : Rot := ⟨⟨0, 0, 1⟩, 0⟩

/-- `obj.Placement`: a base position and a rotation. -/
structure Placement where
  base : Vec
  rot : Rot
deriving DecidableEq, Repr

def Placement.dflt : Placement := ⟨⟨0, 0, 0⟩, Rot.ident⟩

/-- A document object as created by `doc.addObject(typeId, name)` and then
mutated by property assignment.  `label` is `obj.Label` (initially the
name); the optional numeric fields are the shape properties the handlers
assign; `baseRef`/`toolRef` are the `Base`/`Tool` links of a boolean
operation result object. -/
structure DocObject where
  name : String
  typeId : String
  label : String
  placement : Placement := Placement.dflt
  height : Option ℚ := none
  length : Option ℚ := none
  width : Option ℚ := none
  radius : Option ℚ := none
  baseRef : Option String := none
  toolRef : Option String := none
deriving DecidableEq, Repr

/-- A FreeCAD document: its name and its objects in creation order
(`doc.Objects`). -/
structure Document where
  name : String
  objects : List DocObject
deriving DecidableEq, Repr

/-- `FreeCAD.newDocument(name)`: a fresh document with no objects. -/
def newDocument (name : String) : Document := ⟨name, []⟩

/-- `doc.getObject(name)`: the first object with the given internal name,
if any. -/
def Document.getObject (d : Document) (name : String) : Option DocObject :=
  d.objects.find? (fun o => o.name == name)

/-- Appending a freshly built object: `doc.addObject(...)` followed by the
property assignments the handler performs before `recompute`. -/
def Document.addObject (d : Document) (o : DocObject) : Document :=
  ⟨d.name, d.objects ++ [o]⟩

/-- In-place mutation of the object `getObject` returned: update the first
object carrying the given name. -/
def updateFirst (objs : List DocObject) (name : String)
    (f : DocObject → DocObject) : List DocObject :=
  match objs with
  | [] => []
  | o :: rest =>
    if o.name == name then f o :: rest else o :: updateFirst rest name f

def Document.setObject (d : Document) (name : String)
    (f : DocObject → DocObject) : Document :=
  ⟨d.name, updateFirst d.objects name f⟩

/-- `doc.recompute()`: geometry recomputation is opaque to this model and
does not change the document's object list or placements. -/
def Document.recompute (d : Document) : Document := d

/-- A dynamic argument value, the shapes the RPC surface passes: numeric
scalars, strings, `{x,y,z}` dicts, lists of object names, booleans. -/
inductive Value where
  | num : ℚ → Value
  | str : String → Value
  | vecV : Vec → Value
  | strList : List String → Value
  | boolV : Bool → Value
deriving DecidableEq, Repr

/-- The `arguments : Dict[str, Any]` of a tool call. -/
def Args := List (String × Value)

instance : DecidableEq Args := by unfold Args; infer_instance

/-- Python exceptions the handlers can raise: `KeyError` from a required
`args[k]` lookup, `TypeError` from using a value at the wrong dynamic
type. -/
inductive PyExc where
  | keyError : String → PyExc
  | typeError : String → PyExc
deriving DecidableEq, Repr

/-- `str(e)` for the modelled exceptions; `str(KeyError(k))` is the repr
of the key, i.e. the key in single quotes. -/
def PyExc.msg : PyExc → String
  | .keyError k => "'" ++ k ++ "'"
  | .typeError k => "unsupported value for: " ++ k

/-- Dictionary lookup `args.get(k)` (no default): first binding wins. -/
def getArg (args : Args) (k : String) : Option Value :=
  (List.find? (fun p => p.1 == k) args).map (fun p => p.2)

/-- `args[k]` expected to be numeric: `KeyError` if the key is absent,
`TypeError` if present at a non-numeric value. -/
def reqNum (args : Args) (k : String) : Except PyExc ℚ :=
  match getArg args k with
  | none => .error (.keyError k)
  | some (.num q) => .ok q
  | some _ => .error (.typeError k)

/-- `args[k]` expected to be a string. -/
def reqStr (args : Args) (k : String) : Except PyExc String :=
  match getArg args k with
  | none => .error (.keyError k)
  | some (.str s) => .ok s
  | some _ => .error (.typeError k)

/-- `args[k]` expected to be an `{x,y,z}` dict. -/
def reqVec (args : Args) (k : String) : Except PyExc Vec :=
  match getArg args k with
  | none => .error (.keyError k)
  | some (.vecV v) => .ok v
  | some _ => .error (.typeError k)

/-- `args[k]` expected to be a list of object names. -/
def reqStrList (args : Args) (k : String) : Except PyExc (List String) :=
  match getArg args k with
  | none => .error (.keyError k)
  | some (.strList l) => .ok l
  | some _ => .error (.typeError k)

/-- `args.get(k, dflt)` used at string type. -/
def optStr (args : Args) (k : String) (dflt : String) : String :=
  match getArg args k with
  | some (.str s) => s
  | _ => dflt

/-- `args.get(k, dflt)` used at `{x,y,z}` type. -/
def optVec (args : Args) (k : String) (dflt : Vec) : Vec :=
  match getArg args k with
  | some (.vecV v) => v
  | _ => dflt

/-- The state of `MCPServerFreeCAD`: its `active_body` and `doc` fields,
plus the trace of filesystem paths written (an observation of the opaque
`saveAs` / mesh `write` host calls). -/
structure ServerState where
  active_body : Option String
  doc : Option Document
  writes : List String
deriving DecidableEq, Repr

/-- `MCPServerFreeCAD.__init__`: `active_body = None`, `doc = None`. -/
def initState : ServerState := ⟨none, none, []⟩

/-- A handler returns its (possibly mutated) state and either a result
string or a propagating Python exception. -/
abbrev HandlerResult := ServerState × Except PyExc String

/-- `str(value)` for a dynamic argument value. -/
def Value.repr : Value → String
  | .num q => toString q
  | .str s => "'" ++ s ++ "'"
  | .vecV v => "\x7b'x': " ++ toString v.x ++ ", 'y': " ++ toString v.y
      ++ ", 'z': " ++ toString v.z ++ "\x7d"
  | .strList l => "[" ++ String.intercalate ", " (l.map (fun s => "'" ++ s ++ "'")) ++ "]"
  | .boolV b => if b then "True" else "False"

/-- `str(args)` for an argument dict. -/
def argsStr (args : Args) : String :=
  "\x7b" ++ String.intercalate ", "
    (args.map (fun p => "'" ++ p.1 ++ "': " ++ p.2.repr)) ++ "\x7d"

/-- `_boolean_operation`. -/
def boolean_operation (args : Args) (st : ServerState) : HandlerResult :=
  match st.doc with
  | none => (st, .ok "No document available")
  | some doc =>
    match reqStr args "base_object" with
    | .error e => (st, .error e)
    | .ok base_name =>
    match reqStr args "operation" with
    | .error e => (st, .error e)
    | .ok operation =>
    let result_name :=
      optStr args "result_name" (operation ++ "_" ++ toString doc.objects.length)
    match reqStr args "tool_object" with
    | .error e => (st, .error e)
    | .ok tool_name =>
    match doc.getObject base_name, doc.getObject tool_name with
    | some base_obj, some tool_obj =>
      let typeId? : Option String :=
        if operation == "cut" then some "Part::Cut"
        else if operation == "intersection" then some "Part::Common"
        else if operation == "union" then some "Part::Fuse"
        else none
      match typeId? with
      | none => (st, .ok ("Unknown operation: " ++ operation))
      | some typeId =>
        let result : DocObject :=
          { name := result_name, typeId := typeId, label := result_name,
            baseRef := some base_obj.name, toolRef := some tool_obj.name }
        let doc := (doc.addObject result).recompute
        ({ st with doc := some doc },
          .ok ("Created " ++ operation ++ " operation '" ++ result_name ++ "'"))
    | _, _ =>
      (st, .ok ("Could not find objects: " ++ base_name ++ ", " ++ tool_name))

/-- `_create_box`. -/
def create_box (args : Args) (st : ServerState) : HandlerResult :=
  let doc := match st.doc with
    | none => newDocument "Document"
    | some d => d
  let st := { st with doc := some doc }
  match reqNum args "height" with
  | .error e => (st, .error e)
  | .ok height =>
  match reqNum args "length" with
  | .error e => (st, .error e)
  | .ok length =>
  let name := optStr args "name" ("Box_" ++ toString doc.objects.length)
  let position := optVec args "position" ⟨0, 0, 0⟩
  match reqNum args "width" with
  | .error e => (st, .error e)
  | .ok width =>
    let box : DocObject :=
      { name := name, typeId := "Part::Box", label := name,
        placement := { base := position, rot := Rot.ident },
        height := some height, length := some length, width := some width }
    let doc := (doc.addObject box).recompute
    ({ st with doc := some doc },
      .ok ("Created box '" ++ name ++ "' with dimensions " ++ toString length
        ++ "x" ++ toString width ++ "x" ++ toString height ++ "mm"))

/-- `_create_cylinder`. -/
def create_cylinder (args : Args) (st : ServerState) : HandlerResult :=
  let doc := match st.doc with
    | none => newDocument "Document"
    | some d => d
  let st := { st with doc := some doc }
  match reqNum args "height" with
  | .error e => (st, .error e)
  | .ok height =>
  let name := optStr args "name" ("Cylinder_" ++ toString doc.objects.length)
  let position := optVec args "position" ⟨0, 0, 0⟩
  match reqNum args "radius" with
  | .error e => (st, .error e)
  | .ok radius =>
    let cyl : DocObject :=
      { name := name, typeId := "Part::Cylinder", label := name,
        placement := { base := position, rot := Rot.ident },
        height := some height, radius := some radius }
    let doc := (doc.addObject cyl).recompute
    ({ st with doc := some doc },
      .ok ("Created cylinder '" ++ name ++ "' with radius " ++ toString radius
        ++ "mm and height " ++ toString height ++ "mm"))

/-- `_create_document`. -/
def create_document (args : Args) (st : ServerState) : HandlerResult :=
  let doc_name := optStr args "name" "Document"
  ({ st with doc := some (newDocument doc_name) },
    .ok ("Created document: " ++ doc_name))

/-- `_create_sketch`: repairs a missing document, then is unimplemented. -/
def create_sketch (args : Args) (st : ServerState) : HandlerResult :=
  let doc := match st.doc with
    | none => newDocument "Document"
    | some d => d
  let st := { st with doc := some doc }
  (st, .ok ("Not implemented: " ++ argsStr args))

/-- `_create_sphere`. -/
def create_sphere (args : Args) (st : ServerState) : HandlerResult :=
  let doc := match st.doc with
    | none => newDocument "Document"
    | some d => d
  let st := { st with doc := some doc }
  let name := optStr args "name" ("Sphere_" ++ toString doc.objects.length)
  let position := optVec args "position" ⟨0, 0, 0⟩
  match reqNum args "radius" with
  | .error e => (st, .error e)
  | .ok radius =>
    let sph : DocObject :=
      { name := name, typeId := "Part::Sphere", label := name,
        placement := { base := position, rot := Rot.ident },
        radius := some radius }
    let doc := (doc.addObject sph).recompute
    ({ st with doc := some doc },
      .ok ("Created sphere '" ++ name ++ "' with radius " ++ toString radius ++ "mm"))

/-- `_create_pad`: repairs a missing document, then is unimplemented. -/
def create_pad (args : Args) (st : ServerState) : HandlerResult :=
  let doc := match st.doc with
    | none => newDocument "Document"
    | some d => d
  let st := { st with doc := some doc }
  (st, .ok ("Not implemented: create_pad " ++ argsStr args))

/-- `_create_pocket`: repairs a missing document, then is unimplemented. -/
def create_pocket (args : Args) (st : ServerState) : HandlerResult :=
  let doc := match st.doc with
    | none => newDocument "Document"
    | some d => d
  let st := { st with doc := some doc }
  (st, .ok ("Not implemented: create_pocket " ++ argsStr args))

/-- `_export_stl`.  The mesh build (tessellate, `addFacets`, `addMesh`) is
opaque geometry; its observable effect is the single `write(filepath)`
recorded on the `writes` trace, performed only when at least one named
object resolved. -/
def export_stl (args : Args) (st : ServerState) : HandlerResult :=
  match st.doc with
  | none => (st, .ok "No document available")
  | some doc =>
    match reqStr args "filepath" with
    | .error e => (st, .error e)
    | .ok filepath =>
    match reqStrList args "objects" with
    | .error e => (st, .error e)
    | .ok object_names =>
    let objects := object_names.filterMap doc.getObject
    if objects.length > 0 then
      ({ st with writes := st.writes ++ [filepath] },
        .ok ("Exported " ++ toString objects.length ++ " objects to: " ++ filepath))
    else
      (st, .ok "No valid objects found for export")

/-- `_list_objects`. -/
def list_objects (st : ServerState) : HandlerResult :=
  match st.doc with
  | none => (st, .ok "No document available")
  | some doc =>
    let lines := doc.objects.map (fun o =>
      let parts := o.typeId.splitOn "::"
      let obj_type := parts.getLastD o.typeId
      "- " ++ o.label ++ " (" ++ obj_type ++ ")")
    (st, .ok ("Objects in document:\n" ++ String.intercalate "\n" lines))

/-- `_move_object`: adds the delta vector to the object's current
placement base. -/
def move_object (args : Args) (st : ServerState) : HandlerResult :=
  match st.doc with
  | none => (st, .ok "No document available")
  | some doc =>
    match reqStr args "object_name" with
    | .error e => (st, .error e)
    | .ok object_name =>
    let obj? := doc.getObject object_name
    match reqVec args "vector" with
    | .error e => (st, .error e)
    | .ok vec =>
    match obj? with
    | none => (st, .ok ("Object not found: " ++ object_name))
    | some _ =>
      let doc := (doc.setObject object_name (fun o =>
        { o with placement :=
          { o.placement with base := o.placement.base.add vec } })).recompute
      ({ st with doc := some doc },
        .ok ("Moved '" ++ object_name ++ "' by (" ++ toString vec.x ++ ", "
          ++ toString vec.y ++ ", " ++ toString vec.z ++ ")"))

/-- `_rotate_object`: replaces the whole placement with the current base
and a fresh rotation about the given axis by the given angle. -/
def rotate_object (args : Args) (st : ServerState) : HandlerResult :=
  match st.doc with
  | none => (st, .ok "No document available")
  | some doc =>
    match reqNum args "angle" with
    | .error e => (st, .error e)
    | .ok angle =>
    match reqVec args "axis" with
    | .error e => (st, .error e)
    | .ok axis =>
    match reqStr args "object_name" with
    | .error e => (st, .error e)
    | .ok object_name =>
    match doc.getObject object_name with
    | none => (st, .ok ("Object not found: " ++ object_name))
    | some _ =>
      let doc := (doc.setObject object_name (fun o =>
        { o with placement := ⟨o.placement.base, ⟨axis, angle⟩⟩ })).recompute
      ({ st with doc := some doc },
        .ok ("Rotated '" ++ object_name ++ "' around axis (" ++ toString axis.x
          ++ ", " ++ toString axis.y ++ ", " ++ toString axis.z ++ ") by "
          ++ toString angle ++ " degrees"))

/-- `_save_document`: `doc.saveAs(filepath)` is recorded on the `writes`
trace. -/
def save_document (args : Args) (st : ServerState) : HandlerResult :=
  match st.doc with
  | none => (st, .ok "No document available")
  | some _ =>
    match reqStr args "filepath" with
    | .error e => (st, .error e)
    | .ok filepath =>
      ({ st with writes := st.writes ++ [filepath] },
        .ok ("Document saved to: " ++ filepath))

/-- The `if tool_name == ... elif ...` dispatch chain inside
`handle_tool_call`, before the surrounding `try`. -/
def dispatchTool (tool_name : String) (args : Args) (st : ServerState) :
    HandlerResult :=
  if tool_name == "boolean_operation" then boolean_operation args st
  else if tool_name == "create_box" then create_box args st
  else if tool_name == "create_cylinder" then create_cylinder args st
  else if tool_name == "create_document" then create_document args st
  else if tool_name == "create_pad" then create_pad args st
  else if tool_name == "create_pocket" then create_pocket args st
  else if tool_name == "create_sketch" then create_sketch args st
  else if tool_name == "create_sphere" then create_sphere args st
  else if tool_name == "export_stl" then export_stl args st
  else if tool_name == "list_objects" then list_objects st
  else if tool_name == "move_object" then move_object args st
  else if tool_name == "rotate_object" then rotate_object args st
  else if tool_name == "save_document" then save_document args st
  else (st, .ok ("Unknown tool: " ++ tool_name))

/-- `handle_tool_call`: the dispatch chain wrapped in
`try ... except Exception as e: return f"Error executing {tool_name}: {e}"`.
Always returns a plain string. -/
def handle_tool_call (tool_name : String) (args : Args) (st : ServerState) :
    ServerState × String :=
  match dispatchTool tool_name args st with
  | (st, .ok v) => (st, v)
  | (st, .error e) =>
    (st, "Error executing " ++ tool_name ++ ": " ++ e.msg)

/-- Running a sequence of tool calls from a given state. -/
def runCalls (calls : List (String × Args)) (st : ServerState) : ServerState :=
  calls.foldl (fun s c => (handle_tool_call c.1 c.2 s).1) st

/-- A pending call as held by the Command Bridge. -/
structure PendingCall where
  call_id : Nat
  operation_name : String
  arguments : Args
deriving DecidableEq

/-- The outcome of one executed call. -/
inductive Outcome where
  | success : String → Outcome
  | failure : String → Outcome
deriving DecidableEq, Repr

/-- The single result produced for a call. -/
structure CallResult where
  call_id : Nat
  outcome : Outcome
deriving DecidableEq, Repr

/-- An executor: runs one call on the GUI thread; `.error` is a raised
exception. -/
def Executor := PendingCall → Except String String

/-- The one `CallResult` built for a call: an executor exception is
captured as a `failure` result for that call. -/
def mkResult (exec : Executor) (c : PendingCall) : CallResult :=
  ⟨c.call_id, match exec c with
    | .ok v => .success v
    | .error m => .failure m⟩

/-- Modelled from the spec: the Command Bridge implementation
(`comm_server/utils.py` with `request_queue`, `response_queue` and the
`process_gui_tasks` pump, and `comm_server/freecad_rpc.py`) is imported by
`comm_server.py` but is not present under `src/`.  Following §4.1 of the
spec, the bridge state is the FIFO queue of pending calls plus the
histories it induces: calls submitted in submission order, calls executed
in execution order, and results delivered in delivery order. -/
structure BridgeState where
  queue : List PendingCall
  submitted : List PendingCall
  executed : List PendingCall
  delivered : List CallResult
deriving DecidableEq

/-- The bridge before any call. -/
def bridgeInit : BridgeState := ⟨[], [], [], []⟩

/-- Modelled from the spec: one step of the two-thread system.  `submit`
is the RPC-thread side of `Command Bridge.submit`, appending to the FIFO
at any time; `execOne` is the GUI thread executing the head of the queue
fully — one atomic step per call, since per §4.1 the GUI thread executes
one operation fully before starting the next, with no concurrent
execution — and always delivering exactly one `CallResult`, an executor
exception being captured as a `failure` result. -/
inductive BridgeStep (exec : Executor) : BridgeState → BridgeState → Prop
  | submit (c : PendingCall) (s : BridgeState) :
      BridgeStep exec s
        { s with queue := s.queue ++ [c], submitted := s.submitted ++ [c] }
  | execOne (c : PendingCall) (rest : List PendingCall) (s : BridgeState)
      (h : s.queue = c :: rest) :
      BridgeStep exec s
        { queue := rest, submitted := s.submitted,
          executed := s.executed ++ [c],
          delivered := s.delivered ++ [mkResult exec c] }

/-- The bridge states reachable by any interleaving of submissions and
GUI-thread executions. -/
def Reachable (exec : Executor) (s : BridgeState) : Prop :=
  Relation.ReflTransGen (BridgeStep exec) bridgeInit s

/-- The global lifecycle state of `comm_server.py`: the module-level
`rpc_server_instance` and `rpc_server_thread` globals (as identifiers of
the live instance/thread), plus a count of listener instances ever
created, which observes instance/thread creation. -/
structure RpcState where
  rpc_server_instance : Option Nat
  rpc_server_thread : Option Nat
  spawned : Nat
deriving DecidableEq, Repr

/-- The module as loaded: both globals are `None`. -/
def rpcInit : RpcState := ⟨none, none, 0⟩

/-- `start_rpc_server(host, port)`. -/
def start_rpc_server (host : String) (port : Nat) (st : RpcState) :
    RpcState × String :=
  match st.rpc_server_instance with
  | some _ => (st, "RPC Server already running.")
  | none =>
    (⟨some st.spawned, some st.spawned, st.spawned + 1⟩,
      "RPC Server started at " ++ host ++ ":" ++ toString port ++ ".")

/-- `stop_rpc_server()`: shutdown and join are opaque host calls; their
observable effect is clearing both globals. -/
def stop_rpc_server (st : RpcState) : RpcState × String :=
  match st.rpc_server_instance with
  | some _ =>
    ({ st with rpc_server_instance := none, rpc_server_thread := none },
      "RPC Server stopped.")
  | none => (st, "RPC Server was not running.")

/-- The arguments the `move_object` tool builds for `_move_object`. -/
def moveArgs (n : String) (v : Vec) : Args :=
  [("object_name", .str n), ("vector", .vecV v)]

/-- The arguments the `rotate_object` tool builds for `_rotate_object`. -/
def rotArgs (n : String) (a : Vec) (angle : ℚ) : Args :=
  [("object_name", .str n), ("axis", .vecV a), ("angle", .num angle)]

/-- The placement update `_move_object` performs: add the delta to the
current base. -/
def moveUpd (v : Vec) : DocObject → DocObject := fun o =>
  { o with placement := { o.placement with base := o.placement.base.add v } }

/-- The placement update `_rotate_object` performs: keep the base, replace
the rotation. -/
def rotUpd (axis : Vec) (angle : ℚ) : DocObject → DocObject := fun o =>
  { o with placement := ⟨o.placement.base, ⟨axis, angle⟩⟩ }

/-- The arguments the `export_stl` tool builds for `_export_stl`. -/
def exportArgs (names : List String) (fp : String) : Args :=
  [("objects", .strList names), ("filepath", .str fp)]

/-- The arguments the `boolean_operation` tool builds when no
`result_name` is given. -/
def boolArgs (op base tool : String) : Args :=
  [("operation", .str op), ("base_object", .str base), ("tool_object", .str tool)]

/-- The operations that create a document as a side effect when none is
active (`create_document` plus the creators and sketch placeholders). -/
def creatorOps : List String :=
  ["create_document", "create_box", "create_cylinder", "create_sphere",
   "create_sketch", "create_pad", "create_pocket"]

/-- A unit box call without an explicit name. -/
def boxArgs : Args := [("length", .num 1), ("width", .num 1), ("height", .num 1)]

/-- Three unnamed box creations in a row. -/
def threeBoxCalls : List (String × Args) :=
  [("create_box", boxArgs), ("create_box", boxArgs), ("create_box", boxArgs)]

/-- A document containing a single object named `A`. -/
def objA : DocObject := { name := "A", typeId := "Part::Box", label := "A" }

def docOnlyA : Document := ⟨"Doc", [objA]⟩

def stOnlyA : ServerState := ⟨none, some docOnlyA, []⟩

/-- A document whose object `Box_0` sits at position `(3, 4, 5)`. -/
def objP : DocObject :=
  { name := "Box_0", typeId := "Part::Box", label := "Box_0",
    placement := ⟨⟨3, 4, 5⟩, Rot.ident⟩ }

def docP : Document := ⟨"Doc", [objP]⟩

def stP : ServerState := ⟨none, some docP, []⟩

/-- A two-call bridge scenario: call 2's execution fails. -/
def callA : PendingCall := ⟨1, "create_box", boxArgs⟩

def callB : PendingCall := ⟨2, "move_object", []⟩

def execW : Executor := fun c => if c.call_id == 1 then .ok "done" else .error "boom"

def bs1 : BridgeState := ⟨[callA], [callA], [], []⟩

def bs2 : BridgeState := ⟨[callA, callB], [callA, callB], [], []⟩

def bs3 : BridgeState :=
  ⟨[callB], [callA, callB], [callA], [⟨1, .success "done"⟩]⟩

def bs4 : BridgeState :=
  ⟨[], [callA, callB], [callA, callB],
    [⟨1, .success "done"⟩, ⟨2, .failure "boom"⟩]⟩

end FreeCADMCP


namespace FreeCADMCP

theorem handle_fst (tn : String) (args : Args) (st : ServerState) :
    (handle_tool_call tn args st).1 = (dispatchTool tn args st).1 := by
  unfold handle_tool_call
  rcases h : dispatchTool tn args st with ⟨s, r⟩
  cases r <;> simp

theorem create_box_frame (args : Args) (st : ServerState) :
    ((create_box args st).1).active_body = st.active_body ∧
    ((create_box args st).1).doc.isSome = true := by
  unfold create_box
  cases st.doc <;> dsimp only <;> (repeat' split) <;> simp

theorem move_object_frame (args : Args) (st : ServerState) :
    ((move_object args st).1).active_body = st.active_body ∧
    ((move_object args st).1).doc.isSome = st.doc.isSome := by
  unfold move_object
  rcases h : st.doc with _ | d <;> dsimp only <;> (repeat' split) <;> simp [h]


theorem boolean_operation_frame (args : Args) (st : ServerState) :
    ((boolean_operation args st).1).active_body = st.active_body ∧
    ((boolean_operation args st).1).doc.isSome = st.doc.isSome := by
  unfold boolean_operation
  rcases h : st.doc with _ | d <;> dsimp only <;> (repeat' split) <;> simp [h]

theorem create_cylinder_frame (args : Args) (st : ServerState) :
    ((create_cylinder args st).1).active_body = st.active_body ∧
    ((create_cylinder args st).1).doc.isSome = true := by
  unfold create_cylinder
  cases st.doc <;> dsimp only <;> (repeat' split) <;> simp

theorem create_document_frame (args : Args) (st : ServerState) :
    ((create_document args st).1).active_body = st.active_body ∧
    ((create_document args st).1).doc.isSome = true := by
  unfold create_document
  simp

theorem create_sketch_frame (args : Args) (st : ServerState) :
    ((create_sketch args st).1).active_body = st.active_body ∧
    ((create_sketch args st).1).doc.isSome = true := by
  unfold create_sketch
  cases st.doc <;> simp

theorem create_sphere_frame (args : Args) (st : ServerState) :
    ((create_sphere args st).1).active_body = st.active_body ∧
    ((create_sphere args st).1).doc.isSome = true := by
  unfold create_sphere
  cases st.doc <;> dsimp only <;> (repeat' split) <;> simp

theorem create_pad_frame (args : Args) (st : ServerState) :
    ((create_pad args st).1).active_body = st.active_body ∧
    ((create_pad args st).1).doc.isSome = true := by
  unfold create_pad
  cases st.doc <;> simp

theorem create_pocket_frame (args : Args) (st : ServerState) :
    ((create_pocket args st).1).active_body = st.active_body ∧
    ((create_pocket args st).1).doc.isSome = true := by
  unfold create_pocket
  cases st.doc <;> simp

theorem export_stl_frame (args : Args) (st : ServerState) :
    ((export_stl args st).1).active_body = st.active_body ∧
    ((export_stl args st).1).doc = st.doc := by
  unfold export_stl
  rcases h : st.doc with _ | d <;> dsimp only <;> (repeat' split) <;> simp [h]

theorem list_objects_frame (st : ServerState) :
    ((list_objects st).1).active_body = st.active_body ∧
    ((list_objects st).1).doc = st.doc := by
  unfold list_objects
  rcases h : st.doc with _ | d <;> dsimp only <;> simp [h]

theorem rotate_object_frame (args : Args) (st : ServerState) :
    ((rotate_object args st).1).active_body = st.active_body ∧
    ((rotate_object args st).1).doc.isSome = st.doc.isSome := by
  unfold rotate_object
  rcases h : st.doc with _ | d <;> dsimp only <;> (repeat' split) <;> simp [h]

theorem save_document_frame (args : Args) (st : ServerState) :
    ((save_document args st).1).active_body = st.active_body ∧
    ((save_document args st).1).doc = st.doc := by
  unfold save_document
  rcases h : st.doc with _ | d <;> dsimp only <;> (repeat' split) <;> simp [h]

theorem dispatch_active_body (tn : String) (args : Args) (st : ServerState) :
    ((dispatchTool tn args st).1).active_body = st.active_body := by
  unfold dispatchTool
  simp only [beq_iff_eq]
  rcases eq_or_ne tn "boolean_operation" with h0 | h0
  · subst h0; rw [if_pos rfl]
    exact (boolean_operation_frame args st).1
  rw [if_neg h0]
  rcases eq_or_ne tn "create_box" with h1 | h1
  · subst h1; rw [if_pos rfl]
    exact (create_box_frame args st).1
  rw [if_neg h1]
  rcases eq_or_ne tn "create_cylinder" with h2 | h2
  · subst h2; rw [if_pos rfl]
    exact (create_cylinder_frame args st).1
  rw [if_neg h2]
  rcases eq_or_ne tn "create_document" with h3 | h3
  · subst h3; rw [if_pos rfl]
    exact (create_document_frame args st).1
  rw [if_neg h3]
  rcases eq_or_ne tn "create_pad" with h4 | h4
  · subst h4; rw [if_pos rfl]
    exact (create_pad_frame args st).1
  rw [if_neg h4]
  rcases eq_or_ne tn "create_pocket" with h5 | h5
  · subst h5; rw [if_pos rfl]
    exact (create_pocket_frame args st).1
  rw [if_neg h5]
  rcases eq_or_ne tn "create_sketch" with h6 | h6
  · subst h6; rw [if_pos rfl]
    exact (create_sketch_frame args st).1
  rw [if_neg h6]
  rcases eq_or_ne tn "create_sphere" with h7 | h7
  · subst h7; rw [if_pos rfl]
    exact (create_sphere_frame args st).1
  rw [if_neg h7]
  rcases eq_or_ne tn "export_stl" with h8 | h8
  · subst h8; rw [if_pos rfl]
    exact (export_stl_frame args st).1
  rw [if_neg h8]
  rcases eq_or_ne tn "list_objects" with h9 | h9
  · subst h9; rw [if_pos rfl]
    exact (list_objects_frame st).1
  rw [if_neg h9]
  rcases eq_or_ne tn "move_object" with h10 | h10
  · subst h10; rw [if_pos rfl]
    exact (move_object_frame args st).1
  rw [if_neg h10]
  rcases eq_or_ne tn "rotate_object" with h11 | h11
  · subst h11; rw [if_pos rfl]
    exact (rotate_object_frame args st).1
  rw [if_neg h11]
  rcases eq_or_ne tn "save_document" with h12 | h12
  · subst h12; rw [if_pos rfl]
    exact (save_document_frame args st).1
  rw [if_neg h12]

theorem dispatch_doc_mono (tn : String) (args : Args) (st : ServerState)
    (h : st.doc.isSome = true) :
    ((dispatchTool tn args st).1).doc.isSome = true := by
  unfold dispatchTool
  simp only [beq_iff_eq]
  rcases eq_or_ne tn "boolean_operation" with h0 | h0
  · subst h0; rw [if_pos rfl]
    exact ((boolean_operation_frame args st).2).trans h
  rw [if_neg h0]
  rcases eq_or_ne tn "create_box" with h1 | h1
  · subst h1; rw [if_pos rfl]
    exact (create_box_frame args st).2
  rw [if_neg h1]
  rcases eq_or_ne tn "create_cylinder" with h2 | h2
  · subst h2; rw [if_pos rfl]
    exact (create_cylinder_frame args st).2
  rw [if_neg h2]
  rcases eq_or_ne tn "create_document" with h3 | h3
  · subst h3; rw [if_pos rfl]
    exact (create_document_frame args st).2
  rw [if_neg h3]
  rcases eq_or_ne tn "create_pad" with h4 | h4
  · subst h4; rw [if_pos rfl]
    exact (create_pad_frame args st).2
  rw [if_neg h4]
  rcases eq_or_ne tn "create_pocket" with h5 | h5
  · subst h5; rw [if_pos rfl]
    exact (create_pocket_frame args st).2
  rw [if_neg h5]
  rcases eq_or_ne tn "create_sketch" with h6 | h6
  · subst h6; rw [if_pos rfl]
    exact (create_sketch_frame args st).2
  rw [if_neg h6]
  rcases eq_or_ne tn "create_sphere" with h7 | h7
  · subst h7; rw [if_pos rfl]
    exact (create_sphere_frame args st).2
  rw [if_neg h7]
  rcases eq_or_ne tn "export_stl" with h8 | h8
  · subst h8; rw [if_pos rfl]
    exact (congrArg Option.isSome (export_stl_frame args st).2).trans h
  rw [if_neg h8]
  rcases eq_or_ne tn "list_objects" with h9 | h9
  · subst h9; rw [if_pos rfl]
    exact (congrArg Option.isSome (list_objects_frame st).2).trans h
  rw [if_neg h9]
  rcases eq_or_ne tn "move_object" with h10 | h10
  · subst h10; rw [if_pos rfl]
    exact ((move_object_frame args st).2).trans h
  rw [if_neg h10]
  rcases eq_or_ne tn "rotate_object" with h11 | h11
  · subst h11; rw [if_pos rfl]
    exact ((rotate_object_frame args st).2).trans h
  rw [if_neg h11]
  rcases eq_or_ne tn "save_document" with h12 | h12
  · subst h12; rw [if_pos rfl]
    exact (congrArg Option.isSome (save_document_frame args st).2).trans h
  rw [if_neg h12]
  exact h

theorem dispatch_creator_doc (tn : String) (args : Args) (st : ServerState)
    (h : tn ∈ creatorOps) :
    ((dispatchTool tn args st).1).doc.isSome = true := by
  fin_cases h
  · unfold dispatchTool
    simp only [beq_iff_eq, reduceIte]
    exact (create_document_frame args st).2
  · unfold dispatchTool
    simp only [beq_iff_eq, reduceIte]
    exact (create_box_frame args st).2
  · unfold dispatchTool
    simp only [beq_iff_eq, reduceIte]
    exact (create_cylinder_frame args st).2
  · unfold dispatchTool
    simp only [beq_iff_eq, reduceIte]
    exact (create_sphere_frame args st).2
  · unfold dispatchTool
    simp only [beq_iff_eq, reduceIte]
    exact (create_sketch_frame args st).2
  · unfold dispatchTool
    simp only [beq_iff_eq, reduceIte]
    exact (create_pad_frame args st).2
  · unfold dispatchTool
    simp only [beq_iff_eq, reduceIte]
    exact (create_pocket_frame args st).2

/-- C2: for every tool name and argument dict, `handle_tool_call` never
lets an exception escape: its return type is a plain string by
construction, and whenever the dispatched operation handler raises an
exception `e`, the call returns the error-message string
`"Error executing <tool>: <e>"` built from it. -/
theorem handle_tool_call_never_raises (tool_name : String) (args : Args)
    (st : ServerState) (e : PyExc)
    (h : (dispatchTool tool_name args st).2 = .error e) :
    (handle_tool_call tool_name args st).2
      = "Error executing " ++ tool_name ++ ": " ++ e.msg := by
  unfold handle_tool_call
  rcases hd : dispatchTool tool_name args st with ⟨st2, r⟩
  rw [hd] at h
  simp only at h
  subst h
  rfl

/-- Witness for C2: `create_box` called with an empty argument dict raises
`KeyError('height')`, and `handle_tool_call` converts it into the error
string. -/
theorem handle_tool_call_never_raises_witness :
    (dispatchTool "create_box" [] initState).2
      = .error (.keyError "height") ∧
    (handle_tool_call "create_box" [] initState).2
      = "Error executing create_box: 'height'" := by
  refine ⟨rfl, ?_⟩
  have := handle_tool_call_never_raises "create_box" [] initState
    (.keyError "height") rfl
  simpa using this

/-- C9: lifecycle start/stop are idempotent.  `start_rpc_server` while a
listener instance is live returns "already running" and leaves the whole
state — including the count of listener instances ever created — intact,
so no second instance or thread is created; `stop_rpc_server` with no live
instance returns "was not running" and changes nothing; and a successful
stop clears both the instance and the thread reference. -/
theorem rpc_start_stop_idempotent (i n m : Nat) (t u : Option Nat)
    (host : String) (port : Nat) :
    start_rpc_server host port ⟨some i, t, n⟩
        = (⟨some i, t, n⟩, "RPC Server already running.") ∧
    stop_rpc_server ⟨none, u, m⟩
        = (⟨none, u, m⟩, "RPC Server was not running.") ∧
    stop_rpc_server ⟨some i, t, n⟩
        = (⟨none, none, n⟩, "RPC Server stopped.") := by
  exact ⟨rfl, rfl, rfl⟩

/-- C10: `active_body` is `None` at construction and no operation ever
writes it: after any sequence of tool calls from a fresh server, it is
still `None`. -/
theorem active_body_stays_none (calls : List (String × Args)) :
    (runCalls calls initState).active_body = none := by
  have inv : ∀ (cs : List (String × Args)) (st : ServerState),
      (runCalls cs st).active_body = st.active_body := by
    intro cs
    induction cs with
    | nil => intro st; rfl
    | cons c cs ih =>
      intro st
      show (runCalls cs ((handle_tool_call c.1 c.2 st).1)).active_body = _
      rw [ih, handle_fst, dispatch_active_body]
  exact inv calls initState


theorem find?_updateFirst (objs : List DocObject) (n : String)
    (f : DocObject → DocObject) (hf : ∀ o, (f o).name = o.name) :
    (updateFirst objs n f).find? (fun o => o.name == n)
      = (objs.find? (fun o => o.name == n)).map f := by
  induction objs with
  | nil => rfl
  | cons o rest ih =>
    unfold updateFirst
    cases h : (o.name == n) with
    | true =>
      have h2 : ((f o).name == n) = true := by rw [hf o]; exact h
      simp [h, h2, List.find?_cons]
    | false =>
      simp only [h, Bool.false_eq_true, if_false, List.find?_cons]
      simpa [h] using ih

theorem getObject_setObject (d : Document) (n : String)
    (f : DocObject → DocObject) (hf : ∀ o, (f o).name = o.name) :
    (d.setObject n f).getObject n = (d.getObject n).map f :=
  find?_updateFirst d.objects n f hf

/-- C3: `boolean_operation` on an active document in which the base or the
tool object is missing returns the `ObjectNotFound`-kind failure string
`"Could not find objects: <base>, <tool>"` and leaves the state — in
particular the document's object list — completely unchanged: no result
object is created. -/
theorem boolean_operation_not_found (st : ServerState) (d : Document)
    (op base tool : String)
    (hdoc : st.doc = some d)
    (hmiss : d.getObject base = none ∨ d.getObject tool = none) :
    boolean_operation (boolArgs op base tool) st
      = (st, .ok ("Could not find objects: " ++ base ++ ", " ++ tool)) := by
  have hb : reqStr (boolArgs op base tool) "base_object" = .ok base := rfl
  have hop : reqStr (boolArgs op base tool) "operation" = .ok op := rfl
  have ht : reqStr (boolArgs op base tool) "tool_object" = .ok tool := rfl
  unfold boolean_operation
  rw [hdoc]
  dsimp only
  rw [hb]
  dsimp only
  rw [hop]
  dsimp only
  rw [ht]
  dsimp only
  rcases hgb : d.getObject base with _ | ob <;>
    rcases hgt : d.getObject tool with _ | ot
  · rfl
  · rfl
  · rfl
  · rcases hmiss with h | h
    · rw [h] at hgb; exact absurd hgb (by simp)
    · rw [h] at hgt; exact absurd hgt (by simp)

/-- Witness for C3: `boolean_operation("cut", "A", "B")` on a document
holding only `A` fails with the not-found message and changes nothing. -/
theorem boolean_operation_not_found_witness :
    docOnlyA.getObject "B" = none ∧
    boolean_operation (boolArgs "cut" "A" "B") stOnlyA
      = (stOnlyA, .ok "Could not find objects: A, B") := by
  refine ⟨rfl, ?_⟩
  exact boolean_operation_not_found stOnlyA docOnlyA "cut" "A" "B" rfl (Or.inr rfl)


/-- C4: whenever the caller supplies no `name`, `create_box` names the new
object `Box_<n>` with `n` the document's object count at creation time
(operation kind followed by current object count); in particular three
unnamed boxes created in a fresh empty document are named `Box_0`,
`Box_1`, `Box_2` in creation order. -/
theorem create_box_default_naming :
    (∀ (st : ServerState) (d : Document) (args : Args) (h l w : ℚ),
      st.doc = some d →
      getArg args "name" = none →
      reqNum args "height" = .ok h →
      reqNum args "length" = .ok l →
      reqNum args "width" = .ok w →
      ((create_box args st).1.doc.map (fun d2 => d2.objects.map DocObject.name))
        = some (d.objects.map DocObject.name
            ++ ["Box_" ++ toString d.objects.length])) ∧
    ((runCalls threeBoxCalls initState).doc.map
        (fun d2 => d2.objects.map DocObject.name))
      = some ["Box_0", "Box_1", "Box_2"] := by
  constructor
  · intro st d args h l w hdoc hname hh hl hw
    unfold create_box
    rw [hdoc]
    dsimp only
    rw [hh]
    dsimp only
    rw [hl]
    dsimp only [optStr]
    rw [hname]
    dsimp only
    rw [hw]
    dsimp only
    simp [Document.addObject, Document.recompute]
  · rfl

/-- Witness for C4: an unnamed box added to a document holding one object
is named `Box_1`. -/
theorem create_box_default_naming_witness :
    ((create_box boxArgs stOnlyA).1.doc.map
        (fun d2 => d2.objects.map DocObject.name))
      = some ["A", "Box_1"] := by
  have h := create_box_default_naming.1 stOnlyA docOnlyA boxArgs 1 1 1
    rfl rfl rfl rfl rfl
  exact h


theorem Vec.add_assoc (a b c : Vec) : (a.add b).add c = a.add (b.add c) := by
  simp only [Vec.add, Vec.mk.injEq]
  exact ⟨Rat.add_assoc _ _ _, Rat.add_assoc _ _ _, Rat.add_assoc _ _ _⟩

theorem move_object_step (st : ServerState) (d : Document) (n : String)
    (o : DocObject) (v : Vec)
    (hdoc : st.doc = some d) (hobj : d.getObject n = some o) :
    move_object (moveArgs n v) st
      = ({ st with doc := some (d.setObject n (moveUpd v)) },
         .ok ("Moved '" ++ n ++ "' by (" ++ toString v.x ++ ", "
           ++ toString v.y ++ ", " ++ toString v.z ++ ")")) := by
  have h1 : reqStr (moveArgs n v) "object_name" = .ok n := rfl
  have h2 : reqVec (moveArgs n v) "vector" = .ok v := rfl
  unfold move_object
  rw [hdoc]
  dsimp only
  rw [h1]
  dsimp only
  rw [h2]
  dsimp only
  rw [hobj]
  rfl

/-- C5: moves are additive: two consecutive `move_object` calls on an
object present in the active document compose by vector addition of their
deltas onto the current position, leaving every other property of the
object unchanged; with both deltas `{1,0,0}` the net displacement is
`{2,0,0}`. -/
theorem move_object_additive (st : ServerState) (d : Document)
    (n : String) (o : DocObject) (v w : Vec)
    (hdoc : st.doc = some d)
    (hobj : d.getObject n = some o) :
    ((move_object (moveArgs n w) (move_object (moveArgs n v) st).1).1.doc.map
        (fun d2 => d2.getObject n))
      = some (some { o with placement :=
          { o.placement with base := o.placement.base.add (v.add w) } }) := by
  have s1 := move_object_step st d n o v hdoc hobj
  have hobj1 : (d.setObject n (moveUpd v)).getObject n = some (moveUpd v o) := by
    rw [getObject_setObject d n (moveUpd v) (fun _ => rfl), hobj]
    rfl
  have s2 := move_object_step
      { st with doc := some (d.setObject n (moveUpd v)) }
      (d.setObject n (moveUpd v)) n (moveUpd v o) w rfl hobj1
  rw [s1, s2]
  show some (((d.setObject n (moveUpd v)).setObject n (moveUpd w)).getObject n) = _
  rw [getObject_setObject _ n (moveUpd w) (fun _ => rfl), hobj1]
  dsimp only [Option.map, moveUpd]
  rw [Vec.add_assoc]

/-- Witness for C5: `Box_0` at `(3,4,5)` moved twice by `(1,0,0)` ends at
`(5,4,5)`, a net displacement of `(2,0,0)`. -/
theorem move_object_additive_witness :
    ((move_object (moveArgs "Box_0" ⟨1, 0, 0⟩)
        (move_object (moveArgs "Box_0" ⟨1, 0, 0⟩) stP).1).1.doc.map
        (fun d2 => d2.getObject "Box_0"))
      = some (some { objP with placement := ⟨⟨5, 4, 5⟩, Rot.ident⟩ }) := by
  have h := move_object_additive stP docP "Box_0" objP ⟨1, 0, 0⟩ ⟨1, 0, 0⟩
    rfl rfl
  exact h.trans (by norm_num [objP, Vec.add])

/-- C6: `rotate_object` on an object present in the active document
replaces the object's rotation with the rotation about the given axis by
the given angle in degrees, while the placement base (the position) is
kept as it was. -/
theorem rotate_object_replaces_rotation (st : ServerState) (d : Document)
    (n : String) (o : DocObject) (axis : Vec) (angle : ℚ)
    (hdoc : st.doc = some d)
    (hobj : d.getObject n = some o) :
    ((rotate_object (rotArgs n axis angle) st).1.doc.map
        (fun d2 => d2.getObject n))
      = some (some { o with placement := ⟨o.placement.base, ⟨axis, angle⟩⟩ }) := by
  have h1 : reqNum (rotArgs n axis angle) "angle" = .ok angle := rfl
  have h2 : reqVec (rotArgs n axis angle) "axis" = .ok axis := rfl
  have h3 : reqStr (rotArgs n axis angle) "object_name" = .ok n := rfl
  unfold rotate_object
  rw [hdoc]
  dsimp only
  rw [h1]
  dsimp only
  rw [h2]
  dsimp only
  rw [h3]
  dsimp only
  rw [hobj]
  show some ((d.setObject n (rotUpd axis angle)).getObject n) = _
  rw [getObject_setObject _ n (rotUpd axis angle) (fun _ => rfl), hobj]
  rfl

/-- Witness for C6: rotating `Box_0` (at `(3,4,5)`) about `(0,0,1)` by 90
degrees replaces its rotation and keeps its position. -/
theorem rotate_object_replaces_rotation_witness :
    ((rotate_object (rotArgs "Box_0" ⟨0, 0, 1⟩ 90) stP).1.doc.map
        (fun d2 => d2.getObject "Box_0"))
      = some (some { objP with placement := ⟨⟨3, 4, 5⟩, ⟨⟨0, 0, 1⟩, 90⟩⟩ }) := by
  exact rotate_object_replaces_rotation stP docP "Box_0" objP ⟨0, 0, 1⟩ 90 rfl rfl


/-- C7: with an active document, `export_stl` resolves the requested
names by silently skipping any name not found; if zero objects resolve it
returns the "nothing to export" result with the state — and hence the
filesystem write trace — unchanged, and for any name list it never raises
an error. -/
theorem export_stl_nothing_to_export (st : ServerState) (d : Document)
    (names : List String) (fp : String)
    (hdoc : st.doc = some d) :
    (names.filterMap d.getObject = [] →
      export_stl (exportArgs names fp) st
        = (st, .ok "No valid objects found for export")) ∧
    ∀ e, (export_stl (exportArgs names fp) st).2 ≠ Except.error e := by
  have h1 : reqStr (exportArgs names fp) "filepath" = .ok fp := rfl
  have h2 : reqStrList (exportArgs names fp) "objects" = .ok names := rfl
  unfold export_stl
  rw [hdoc]
  dsimp only
  rw [h1]
  dsimp only
  rw [h2]
  dsimp only
  constructor
  · intro h
    rw [h]
    rfl
  · intro e
    by_cases hc : (names.filterMap d.getObject).length > 0
    · rw [if_pos hc]
      simp
    · rw [if_neg hc]
      simp

/-- Witness for C7: `export_stl([], "out.stl")` on an active document
returns the nothing-to-export result, leaves the state (and its write
trace) unchanged, and is not an error. -/
theorem export_stl_nothing_to_export_witness :
    export_stl (exportArgs [] "out.stl") stOnlyA
      = (stOnlyA, .ok "No valid objects found for export") ∧
    (export_stl (exportArgs [] "out.stl") stOnlyA).2
      ≠ Except.error (.keyError "filepath") := by
  have h := export_stl_nothing_to_export stOnlyA docOnlyA [] "out.stl" rfl
  exact ⟨h.1 rfl, h.2 (.keyError "filepath")⟩

/-- C8: the Document Handle state machine over `{absent, present}`: every
operation with a document present leaves a document present (no operation
transitions back to absent), and any of the creation/sketch operations —
`create_document`, `create_box`, `create_cylinder`, `create_sphere`,
`create_sketch`, `create_pad`, `create_pocket` — leaves a document present
even when invoked while absent. -/
theorem document_state_machine (tn : String) (args : Args) (st : ServerState) :
    (st.doc.isSome = true →
      ((handle_tool_call tn args st).1).doc.isSome = true) ∧
    (tn ∈ creatorOps →
      ((handle_tool_call tn args st).1).doc.isSome = true) := by
  constructor
  · intro h
    rw [handle_fst]
    exact dispatch_doc_mono tn args st h
  · intro h
    rw [handle_fst]
    exact dispatch_creator_doc tn args st h

/-- Witness for C8: `save_document` keeps the document of a server that
has one, and `create_box` invoked on a fresh server (document absent)
leaves a document present. -/
theorem document_state_machine_witness :
    ((handle_tool_call "save_document" [] stOnlyA).1).doc.isSome = true ∧
    ((handle_tool_call "create_box" boxArgs initState).1).doc.isSome = true := by
  refine ⟨(document_state_machine "save_document" [] stOnlyA).1 rfl, ?_⟩
  exact (document_state_machine "create_box" boxArgs initState).2 (by decide)


theorem bridge_inv (exec : Executor) (s : BridgeState)
    (hr : Reachable exec s) :
    s.executed ++ s.queue = s.submitted ∧
    s.delivered = s.executed.map (mkResult exec) := by
  induction hr with
  | refl => exact ⟨rfl, rfl⟩
  | tail _ step ih =>
    rcases ih with ⟨ih1, ih2⟩
    cases step with
    | submit c t =>
      refine ⟨?_, ih2⟩
      rw [← List.append_assoc, ih1]
    | execOne c rest t hq =>
      constructor
      · rw [List.append_assoc]
        rw [hq] at ih1
        exact ih1
      · rw [ih2, List.map_append]
        rfl

/-- C1 (spec-modelled: the bridge implementation in
`comm_server/utils.py` / `freecad_rpc.py` is imported by `comm_server.py`
but absent from `src/`, so the Command Bridge is modelled from §4.1 of the
spec as a transition system whose GUI-thread step executes one queued call
atomically): in every state reachable by any interleaving of submissions
and executions, the calls executed so far followed by the still-queued
calls are exactly the calls submitted, in submission order (strict FIFO,
one call fully at a time); the delivered results are, in delivery order,
exactly the one `CallResult` of each executed call in execution order; and
when call ids are unique each executed call's id carries exactly one
delivered result — also when the executor failed for that call. -/
theorem bridge_fifo_exactly_once (exec : Executor) (s : BridgeState)
    (hr : Reachable exec s)
    (hnd : (s.submitted.map PendingCall.call_id).Nodup) :
    s.executed ++ s.queue = s.submitted ∧
    s.delivered = s.executed.map (mkResult exec) ∧
    ∀ c ∈ s.executed,
      (s.delivered.filter (fun r => r.call_id == c.call_id)).length = 1 := by
  obtain ⟨h1, h2⟩ := bridge_inv exec s hr
  refine ⟨h1, h2, ?_⟩
  intro c hc
  have hsub : List.Sublist (s.executed.map PendingCall.call_id)
      (s.submitted.map PendingCall.call_id) := by
    rw [← h1, List.map_append]
    exact List.sublist_append_left _ _
  have hndex : (s.executed.map PendingCall.call_id).Nodup := hnd.sublist hsub
  rw [h2, List.filter_map, List.length_map]
  have hpred : ((fun r : CallResult => r.call_id == c.call_id) ∘ mkResult exec)
      = (fun o : PendingCall => o.call_id == c.call_id) := rfl
  rw [hpred, ← List.countP_eq_length_filter]
  have hcount : List.countP (fun o : PendingCall => o.call_id == c.call_id)
        s.executed
      = List.count c.call_id (s.executed.map PendingCall.call_id) := by
    rw [List.count, List.countP_map]
    rfl
  rw [hcount]
  exact List.count_eq_one_of_mem hndex (List.mem_map_of_mem _ hc)

/-- Witness for C1: a concrete interleaving — submit call 1, submit call
2, execute call 1 (succeeds), execute call 2 (executor raises) — reaches
`bs4`; both calls were executed in FIFO order, results were delivered in
that order, and the failing call 2 still received exactly one result. -/
theorem bridge_fifo_exactly_once_witness :
    bs4.executed ++ bs4.queue = bs4.submitted ∧
    bs4.delivered = bs4.executed.map (mkResult execW) ∧
    (bs4.delivered.filter (fun r => r.call_id == callB.call_id)).length = 1 := by
  have t1 : BridgeStep execW bridgeInit bs1 := BridgeStep.submit callA bridgeInit
  have t2 : BridgeStep execW bs1 bs2 := BridgeStep.submit callB bs1
  have t3 : BridgeStep execW bs2 bs3 := BridgeStep.execOne callA [callB] bs2 rfl
  have t4 : BridgeStep execW bs3 bs4 := BridgeStep.execOne callB [] bs3 rfl
  have hr : Reachable execW bs4 :=
    Relation.ReflTransGen.tail
      (Relation.ReflTransGen.tail
        (Relation.ReflTransGen.tail (Relation.ReflTransGen.single t1) t2) t3) t4
  have h := bridge_fifo_exactly_once execW bs4 hr (by decide)
  exact ⟨h.1, h.2.1, h.2.2 callB (by decide)⟩

end FreeCADMCP
